import Mathlib

/-!
Formal model of the `llvm-side-by-side` benchmarking harness (`main.go`).

The program invokes an external code generator (`<toolchain>/bin/llc`) for two
toolchains on the same bitcode test file, scrapes three statistics from each
run's standard-error text with three package-level regular expressions, and
prints one tab-separated comparison line.

Shallow-embedding conventions:

* Go strings are modelled as `String` / `List Char`.  The scraped diagnostic
  text is ASCII; working at the `Char` level instead of the byte level is
  observation-equivalent for the three patterns involved (every byte of a
  multi-byte UTF-8 character is non-ASCII and therefore can neither be a
  digit, a `.`, an `N`, nor a character of the fixed pattern literals).
* The three package-level regular expressions
  (`stackSpaceRegexp`, `asmInstrsRegexp`, `execTimeRegexp`) are compiled into
  direct executable matchers (`statFind`, `execFind`) implementing Go's
  leftmost match-and-submatch semantics for those three concrete patterns.
  For these patterns the greedy character-class repetitions are forced (each
  repetition is followed by a literal character that cannot belong to the
  class), so leftmost-first and leftmost-longest semantics coincide and the
  matchers below realise both.
* `strconv.Atoi` / `strconv.Atof64` belong to the pre-Go1 standard library
  this source compiles against (`os.Error`, package `exec`): `int` is 32 bits
  there, and both functions return a value *together with* the error.
  Floats are modelled as exact decimal rationals: the program performs no
  arithmetic on them (they are only stored and printed back), so binary
  `float64` rounding is never observable at the level of the claims.
* Process execution (`runTest`) is pure IO and is modelled as an oracle
  parameter of the driver: the oracle receives the invocation index and the
  `(toolchain, test)` arguments and answers with the captured stderr text or
  with an error message (the stringified error `runTest` would return).
* `log.Printf` / `log.Fatalf` messages are modelled without the `log`
  package's wall-clock timestamp prefix, which is not representable in a
  pure model and is not load-bearing for any claim.
-/

set_option maxRecDepth 4000

/-! ## Character helpers and the Go standard-library fragments used -/

/-- `unicode.IsSpace` for the code points Go's `strings.TrimSpace` strips
(ASCII whitespace plus the Unicode `White_Space` code points). -/
def goIsSpace (c : Char) : Bool :=
  c = ' ' || c = '\t' || c = '\n' || c = '\x0b' || c = '\x0c' || c = '\r' ||
  c = '\x85' || c = '\xa0' || c = '\u1680' ||
  ('\u2000' ≤ c && c ≤ '\u200a') ||
  c = '\u2028' || c = '\u2029' || c = '\u202f' || c = '\u205f' || c = '\u3000'

/-- Go `strings.TrimSpace`, on the character list of the string. -/
def goTrimSpaceC (s : List Char) : List Char :=
  ((s.dropWhile goIsSpace).reverse.dropWhile goIsSpace).reverse

/-- Decimal value of a list of digit characters (most significant first). -/
def digitsToNat (ds : List Char) : ℕ :=
  ds.foldl (fun a c => 10 * a + (c.toNat - '0'.toNat)) 0

/-- Two's-complement truncation of an integer to 32 bits, as Go's conversion
`int(i64)` performs on a 32-bit `int`. -/
def wrap32 (n : ℤ) : ℤ := (n + 2 ^ 31) % 2 ^ 32 - 2 ^ 31

/-- Pre-Go1 `strconv.Atoi` (32-bit `int`), restricted to the strings the
program feeds it.  On success it yields the decimal value; on failure it
yields, in `Except.error`, the value Go returns *alongside* the error
(`0` for a syntax error; for a range error, `Atoi64`'s value clamped to
`2^63 - 1` and then truncated to 32 bits by the `int` conversion), because
the caller's multi-assignment stores that value into the `Stats` field. -/
def goAtoiC (ds : List Char) : Except ℤ ℤ :=
  if !ds.isEmpty && ds.all Char.isDigit then
    if digitsToNat ds ≤ 2 ^ 31 - 1 then Except.ok (digitsToNat ds)
    else Except.error (wrap32 (min (digitsToNat ds : ℤ) (2 ^ 63 - 1)))
  else Except.error 0

/-- Pre-Go1 `strconv.Atof64`, restricted to the character set `[0-9.]` the
capturing groups can produce: the string must contain at least one digit and
at most one dot, and its value is the exact decimal it denotes (modelled as a
rational; see the module comment on `float64` rounding).  Anything else is a
syntax error, for which Go returns the value `0` alongside the error. -/
def goAtofC (cs : List Char) : Option ℚ :=
  if cs.all (fun c => c.isDigit || c = '.') ∧ cs.any Char.isDigit ∧
      cs.count '.' ≤ 1 then
    some (mkRat
      (digitsToNat (cs.takeWhile (fun c => c ≠ '.')) *
          10 ^ ((cs.dropWhile (fun c => c ≠ '.')).drop 1).length +
        digitsToNat ((cs.dropWhile (fun c => c ≠ '.')).drop 1))
      (10 ^ ((cs.dropWhile (fun c => c ≠ '.')).drop 1).length))
  else none

/-- Go `strings.Split(s, "\n")`: split at every newline, keeping empty
fields; the empty string yields one empty field. -/
def splitNL : List Char → List (List Char)
  | [] => [[]]
  | c :: cs =>
    if c = '\n' then [] :: splitNL cs
    else
      match splitNL cs with
      | [] => [[c]]
      | l :: ls => (c :: l) :: ls

/-! ## The three compiled patterns

`asmInstrsRegexp  = ([0-9]+) asm-printer[^N]+Number of machine instrs printed`
`stackSpaceRegexp = ([0-9]+) pei[^N]+Number of bytes used for stack in all functions`
`execTimeRegexp   = Total Execution Time: ([0-9.]+) seconds \(([0-9.]+) wall clock\)`

A match of the first two shapes at a given start position is forced: the
digit run must be maximal (the following literal starts with a space), and
`[^N]+` must stop exactly at the first `N` after the tag (it cannot cross an
`N`, and the literal starts with `N`), with at least one character consumed.
The same forcing applies to the `[0-9.]+` groups of the third shape.  The
`find` functions scan start positions left to right, which is Go's leftmost
rule; the returned submatch of a digit run tried mid-run equals the one of
its run start, so the first success is the leftmost match. -/

/-- Attempt `([0-9]+)<sep>[^N]+<lit>` anchored at the head of `s`; returns
the captured digit run on success. -/
def statMatchAt (sep lit : List Char) (s : List Char) : Option (List Char) :=
  if (s.takeWhile Char.isDigit).isEmpty then none
  else if sep.isPrefixOf (s.dropWhile Char.isDigit) then
    if ((s.dropWhile Char.isDigit).drop sep.length).takeWhile
        (fun c => c ≠ 'N') |>.isEmpty then none
    else if lit.isPrefixOf (((s.dropWhile Char.isDigit).drop
        sep.length).dropWhile (fun c => c ≠ 'N')) then
      some (s.takeWhile Char.isDigit)
    else none
  else none

/-- Leftmost match of `([0-9]+)<sep>[^N]+<lit>` in `s` (unanchored), i.e.
`regexp.FindStringSubmatch`'s capture; `none` means `MatchString` is false. -/
def statFind (sep lit : List Char) : List Char → Option (List Char)
  | [] => none
  | c :: cs =>
    match statMatchAt sep lit (c :: cs) with
    | some ds => some ds
    | none => statFind sep lit cs

/-- `asmInstrsRegexp` submatch. -/
def asmFind (s : List Char) : Option (List Char) :=
  statFind " asm-printer".data "Number of machine instrs printed".data s

/-- `stackSpaceRegexp` submatch. -/
def peiFind (s : List Char) : Option (List Char) :=
  statFind " pei".data "Number of bytes used for stack in all functions".data s

/-- A character the class `[0-9.]` accepts. -/
def isFloatChar (c : Char) : Bool := c.isDigit || c = '.'

/-- Attempt `execTimeRegexp` anchored at the head of `s`; returns the pair of
captured `[0-9.]+` runs on success. -/
def execMatchAt (s : List Char) : Option (List Char × List Char) :=
  if "Total Execution Time: ".data.isPrefixOf s then
    let r1 := s.drop "Total Execution Time: ".length
    if (r1.takeWhile isFloatChar).isEmpty then none
    else if " seconds (".data.isPrefixOf (r1.dropWhile isFloatChar) then
      let r3 := (r1.dropWhile isFloatChar).drop " seconds (".length
      if (r3.takeWhile isFloatChar).isEmpty then none
      else if " wall clock)".data.isPrefixOf (r3.dropWhile isFloatChar) then
        some (r1.takeWhile isFloatChar, r3.takeWhile isFloatChar)
      else none
    else none
  else none

/-- Leftmost match of `execTimeRegexp` in `s` (unanchored). -/
def execFind : List Char → Option (List Char × List Char)
  | [] => none
  | c :: cs =>
    match execMatchAt (c :: cs) with
    | some r => some r
    | none => execFind cs

/-! ## The Stats record and the Statistics Extractor -/

/-- The `Stats` record of `main.go` (`int` fields as integers, `float64`
fields as the exact decimal rationals the program stores in them). -/
@[ext]
structure Stats where
  AsmInstrs : ℤ
  StackSpace : ℤ
  Seconds : ℚ
  WallSeconds : ℚ
  deriving DecidableEq, Repr

/-- `new(Stats)`: the Go zero value. -/
def zeroStats : Stats := ⟨0, 0, 0, 0⟩

/-- Conversion step of the `execTimeRegexp` block (source lines 106–115),
applied to the two captured submatches.  `res.Seconds, err =
strconv.Atof64(ss[1])` assigns the conversion's returned value (`0` on a
syntax error) even when it fails, and a failure `continue`s before
`WallSeconds` is touched; likewise for `ss[2]`. -/
def execApply (res : Stats) (p : List Char × List Char) : Stats :=
  match goAtofC p.1 with
  | none => { res with Seconds := 0 }
  | some q =>
    match goAtofC p.2 with
    | none => { res with Seconds := q, WallSeconds := 0 }
    | some w => { res with Seconds := q, WallSeconds := w }

/-- The `execTimeRegexp` block of the loop body of `parseTestOutput`
(source lines 99–116). -/
def processLineExec (res : Stats) (line : List Char) : Stats :=
  match execFind line with
  | some p => execApply res p
  | none => res

/-- Conversion step of the `stackSpaceRegexp` block (source lines 87–97):
a failed `Atoi` stores the value returned alongside the error and
`continue`s, skipping the rest of the loop body for this line; a successful
one stores the value and falls through to the execution-time block. -/
def stackApply (res : Stats) (line ds : List Char) : Stats :=
  match goAtoiC ds with
  | Except.error v => { res with StackSpace := v }
  | Except.ok n => processLineExec { res with StackSpace := n } line

/-- The `stackSpaceRegexp` block (source lines 86–98) chained with the
execution-time block. -/
def processLineStack (res : Stats) (line : List Char) : Stats :=
  match peiFind line with
  | some ds => stackApply res line ds
  | none => processLineExec res line

/-- Conversion step of the `asmInstrsRegexp` block (source lines 74–84),
analogous to `stackApply`. -/
def asmApply (res : Stats) (line ds : List Char) : Stats :=
  match goAtoiC ds with
  | Except.error v => { res with AsmInstrs := v }
  | Except.ok n => processLineStack { res with AsmInstrs := n } line

/-- One iteration of the loop of `parseTestOutput` (source lines 71–117):
trim the line, then run the three pattern blocks in order, where a failed
numeric conversion stores the conversion's returned value and `continue`s. -/
def processLineC (res : Stats) (raw : List Char) : Stats :=
  match asmFind (goTrimSpaceC raw) with
  | some ds => asmApply res (goTrimSpaceC raw) ds
  | none => processLineStack res (goTrimSpaceC raw)

/-- The loop of `parseTestOutput` run over a list of lines, starting from
`new(Stats)`. -/
def parseLines (lines : List (List Char)) : Stats :=
  lines.foldl processLineC zeroStats

/-- `parseTestOutput` (source lines 69–119): split the stderr text at
newlines and scan every line. -/
def parseTestOutput (stderr : String) : Stats :=
  parseLines (splitNL stderr.data)

/-! ## The Comparison Driver -/

/-- The command-line flags (`-t1`, `-t2`, `-test`); an unset flag is the
empty string, its registered default. -/
structure Flags where
  t1 : String
  t2 : String
  test : String

/-- Outcome of one `runTest` invocation, as seen by the driver: the captured
stderr text, or the stringified `os.Error` it returns. -/
inductive RunResult where
  | ok (stderrText : String)
  | err (msg : String)

/-- Observable behaviour of one program invocation: child processes spawned
(in order, as `(toolchain, test)` pairs), the full standard-output text, the
messages written to standard error, and the exit status (`some c` when the
program exits early through `os.Exit`/`log.Fatalf`, `none` when `main`
returns normally, i.e. status 0). -/
structure Trace where
  calls : List (String × String)
  out : String
  errOut : List String
  exitCode : Option ℕ
  deriving DecidableEq, Repr

/-- `flag.PrintDefaults()` output for the three registered flags (modelled
from the registrations at source lines 19–21: name, default `""`, usage). -/
def flagDefaultsText : String :=
  "  -t1=\"\": Path to the first toolchain\n" ++
  "  -t2=\"\": Path to the second toolchain\n" ++
  "  -test=\"\": Path to the test bitcode file\n"

/-- `checkArg` failing (source lines 148–154): usage message on stderr,
`os.Exit(1)`, nothing run. -/
def usageTrace (flagName : String) : Trace :=
  ⟨[], "", [flagName ++ " is not specified\n" ++ flagDefaultsText], some 1⟩

/-- The `log.Fatalf` message of `runBoth` when toolchain 1's run fails
(source line 132). -/
def fatalT1 (fl : Flags) (e : String) : String :=
  "runTest(t1=" ++ fl.t1 ++ ", test=" ++ fl.test ++ "): " ++ e

/-- The `log.Fatalf` message of `runBoth` when toolchain 2's run fails
(source line 136). -/
def fatalT2 (fl : Flags) (e : String) : String :=
  "runTest(t2=" ++ fl.t2 ++ ", test=" ++ fl.test ++ "): " ++ e

/-- The `fmt.Printf("Running test: %s\n", *test)` line (source line 162),
written to standard output. -/
def headerLine (fl : Flags) : String := "Running test: " ++ fl.test ++ "\n"

/-- Go `path.Base`. -/
def goPathBase (p : String) : String :=
  if p = "" then "."
  else if (p.data.reverse.dropWhile (fun c => c = '/')).isEmpty then "/"
  else ⟨((p.data.reverse.dropWhile (fun c => c = '/')).takeWhile
    (fun c => c ≠ '/')).reverse⟩

/-- `%d` formatting of a Go integer. -/
def fmtInt (n : ℤ) : String :=
  if n < 0 then "-" ++ Nat.repr n.natAbs else Nat.repr n.natAbs

/-- Left-pad a decimal string with zeros to `k` digits. -/
def leftPad0 (k : ℕ) (s : String) : String :=
  ⟨List.replicate (k - s.length) '0'⟩ ++ s

/-- Smallest power of ten clearing the denominator of `q` (the values this
program stores are exact decimals, so a power below the search bound always
exists for them). -/
def decScale (q : ℚ) : ℕ :=
  ((List.range 400).find? (fun k => 10 ^ k % q.den == 0)).getD 0

/-- `%v` formatting of a stored timing value: Go prints a `float64` under
`%v` in shortest-decimal `%g` form, which for the exact short decimals this
program stores (parsed from the diagnostic text, or `0`) is the plain
minimal-scale decimal expansion rendered here.  (`%g`'s switch to exponent
notation for magnitudes below `1e-4` or at and above `1e21` is not modelled;
the scraped timing values lie in the plain-decimal range.) -/
def fmtQ (q : ℚ) : String :=
  if decScale q = 0 then Nat.repr (q.num.natAbs)
  else
    Nat.repr ((q.num.natAbs * 10 ^ decScale q / q.den) / 10 ^ decScale q) ++ "." ++
      leftPad0 (decScale q)
        (Nat.repr ((q.num.natAbs * 10 ^ decScale q / q.den) % 10 ^ decScale q))

/-- The `printStats` output line (source lines 141–146): base name of the
test file and the four fields of each toolchain's `Stats`, tab-separated,
newline-terminated. -/
def statsLine (base : String) (s1 s2 : Stats) : String :=
  base ++ "\t" ++ fmtInt s1.AsmInstrs ++ "\t" ++ fmtInt s1.StackSpace ++ "\t" ++
    fmtQ s1.Seconds ++ "\t" ++ fmtQ s1.WallSeconds ++ "\t" ++
    fmtInt s2.AsmInstrs ++ "\t" ++ fmtInt s2.StackSpace ++ "\t" ++
    fmtQ s2.Seconds ++ "\t" ++ fmtQ s2.WallSeconds ++ "\n"

/-- `main` (source lines 156–174) with `runTest` abstracted into the oracle
`runner` (invocation index, toolchain path, test path).  Flag checks run in
source order (`-test`, `-t1`, `-t2`); then the header line is printed, then
`runBoth` runs twice — invocations 0/1 are the first (discarded) pipeline,
invocations 2/3 the second, whose parsed statistics feed `printStats`.  Any
failing invocation is `log.Fatalf`: the message of `runBoth` goes to stderr
and the process exits with status 1. -/
def mainExec (fl : Flags) (runner : ℕ → String → String → RunResult) : Trace :=
  if fl.test = "" then usageTrace "-test"
  else if fl.t1 = "" then usageTrace "-t1"
  else if fl.t2 = "" then usageTrace "-t2"
  else
    match runner 0 fl.t1 fl.test with
    | RunResult.err e => ⟨[(fl.t1, fl.test)], headerLine fl, [fatalT1 fl e], some 1⟩
    | RunResult.ok _ =>
      match runner 1 fl.t2 fl.test with
      | RunResult.err e =>
        ⟨[(fl.t1, fl.test), (fl.t2, fl.test)], headerLine fl, [fatalT2 fl e], some 1⟩
      | RunResult.ok _ =>
        match runner 2 fl.t1 fl.test with
        | RunResult.err e =>
          ⟨[(fl.t1, fl.test), (fl.t2, fl.test), (fl.t1, fl.test)],
            headerLine fl, [fatalT1 fl e], some 1⟩
        | RunResult.ok se2 =>
          match runner 3 fl.t2 fl.test with
          | RunResult.err e =>
            ⟨[(fl.t1, fl.test), (fl.t2, fl.test), (fl.t1, fl.test), (fl.t2, fl.test)],
              headerLine fl, [fatalT2 fl e], some 1⟩
          | RunResult.ok se3 =>
            ⟨[(fl.t1, fl.test), (fl.t2, fl.test), (fl.t1, fl.test), (fl.t2, fl.test)],
              headerLine fl ++ statsLine (goPathBase fl.test)
                (parseTestOutput se2) (parseTestOutput se3),
              [], none⟩

/-! ## Rewriting lemmas for the extractor loop -/

/-- A line on which none of the three patterns matches (after trimming, as
the loop matches trimmed lines). -/
abbrev noMatchLine (l : List Char) : Prop :=
  asmFind (goTrimSpaceC l) = none ∧ peiFind (goTrimSpaceC l) = none ∧
    execFind (goTrimSpaceC l) = none

theorem processLineC_of_asm_none (res : Stats) (raw : List Char)
    (h : asmFind (goTrimSpaceC raw) = none) :
    processLineC res raw = processLineStack res (goTrimSpaceC raw) := by
  unfold processLineC; rw [h]

theorem processLineStack_of_pei_none (res : Stats) (line : List Char)
    (h : peiFind line = none) :
    processLineStack res line = processLineExec res line := by
  unfold processLineStack; rw [h]

theorem processLineExec_of_none (res : Stats) (line : List Char)
    (h : execFind line = none) :
    processLineExec res line = res := by
  unfold processLineExec; rw [h]

theorem processLineC_id (res : Stats) (raw : List Char) (h : noMatchLine raw) :
    processLineC res raw = res := by
  rw [processLineC_of_asm_none res raw h.1, processLineStack_of_pei_none res _ h.2.1,
    processLineExec_of_none res _ h.2.2]

/-! ## Folding the loop over line lists -/

theorem foldl_id_of_noMatch (C : List (List Char)) (r : Stats)
    (h : ∀ m ∈ C, noMatchLine m) : C.foldl processLineC r = r := by
  induction C generalizing r with
  | nil => rfl
  | cons x xs ih =>
    rw [List.foldl_cons, processLineC_id r x (h x (List.mem_cons_self x xs))]
    exact ih r (fun m hm => h m (List.mem_cons_of_mem x hm))

/-- C1: on the three-line end-to-end diagnostic text of the spec's scenario,
`parseTestOutput` extracts `AsmInstrs = 1234`, `StackSpace = 56`,
`Seconds = 0.0421` and `WallSeconds = 0.0450`. -/
theorem C1_end_to_end_extraction :
    parseTestOutput
        ("1234 asm-printer               - Number of machine instrs printed\n" ++
          "56 pei-prologue-epilogue       - Number of bytes used for stack in all functions\n" ++
          "Total Execution Time: 0.0421 seconds (0.0450 wall clock)") =
      ⟨1234, 56, mkRat 421 10000, mkRat 450 10000⟩ := by decide

/-- C6: diagnostic text in which no line matches any of the three patterns
parses to the all-zero `Stats` record. -/
theorem C6_zero_default (s : String)
    (h : ∀ m ∈ splitNL s.data, noMatchLine m) :
    parseTestOutput s = zeroStats := by
  unfold parseTestOutput parseLines
  exact foldl_id_of_noMatch (splitNL s.data) zeroStats h

/-- Witness for C6 at a concrete two-line non-matching text. -/
theorem C6_witness : parseTestOutput "hello\nworld" = zeroStats :=
  C6_zero_default "hello\nworld" (by decide)

/-- C8: the extractor is total — for every input text it returns a `Stats`
record (and in particular returns the zero record on empty or entirely
non-matching input); it has no failure outcome. -/
theorem C8_extractor_total :
    (∀ s : String, ∃ st : Stats, parseTestOutput s = st) ∧
    parseTestOutput "" = zeroStats ∧
    parseTestOutput "no statistics in this text 123" = zeroStats :=
  ⟨fun s => ⟨parseTestOutput s, rfl⟩, by decide, by decide⟩

/-- C3 counterexample: the claim says one invocation writes exactly one line
to standard output — the tab-separated record — and nothing else.  On a
concrete successful invocation the standard output in fact contains an
additional first line `Running test: <test>` (printed by `main` before the
pipeline runs), so it is not equal to the record line alone. -/
theorem C3_counterexample :
    (mainExec ⟨"/a", "/b", "/d/t.bc"⟩ (fun _ _ _ => RunResult.ok "")).out =
      "Running test: /d/t.bc\nt.bc\t0\t0\t0\t0\t0\t0\t0\t0\n" ∧
    "Running test: /d/t.bc\nt.bc\t0\t0\t0\t0\t0\t0\t0\t0\n" ≠
      "t.bc\t0\t0\t0\t0\t0\t0\t0\t0\n" :=
  ⟨by decide, by decide⟩

/-- C3 (amended): a successful invocation writes to standard output exactly
two lines and nothing else: first `Running test: <test>`, then the
tab-separated record — base name of the test file, toolchain 1's four
fields, toolchain 2's four fields, newline-terminated — computed from the
second pipeline run; nothing is written to the error stream and the program
exits normally. -/
theorem C3_stdout_header_then_record (fl : Flags)
    (runner : ℕ → String → String → RunResult) (s0 s1 s2 s3 : String)
    (ht : fl.test ≠ "") (h1 : fl.t1 ≠ "") (h2 : fl.t2 ≠ "")
    (r0 : runner 0 fl.t1 fl.test = RunResult.ok s0)
    (r1 : runner 1 fl.t2 fl.test = RunResult.ok s1)
    (r2 : runner 2 fl.t1 fl.test = RunResult.ok s2)
    (r3 : runner 3 fl.t2 fl.test = RunResult.ok s3) :
    (mainExec fl runner).out =
      headerLine fl ++ statsLine (goPathBase fl.test)
        (parseTestOutput s2) (parseTestOutput s3) ∧
    (mainExec fl runner).errOut = [] ∧ (mainExec fl runner).exitCode = none := by
  unfold mainExec
  rw [if_neg ht, if_neg h1, if_neg h2, r0, r1, r2, r3]
  exact ⟨rfl, rfl, rfl⟩

/-- Witness for C3's amended theorem on a concrete invocation. -/
theorem C3_witness :
    (mainExec ⟨"/u", "/v", "/w/y.bc"⟩ (fun _ _ _ => RunResult.ok "")).out =
      headerLine ⟨"/u", "/v", "/w/y.bc"⟩ ++ statsLine (goPathBase "/w/y.bc")
        (parseTestOutput "") (parseTestOutput "") ∧
    (mainExec ⟨"/u", "/v", "/w/y.bc"⟩ (fun _ _ _ => RunResult.ok "")).errOut = [] ∧
    (mainExec ⟨"/u", "/v", "/w/y.bc"⟩ (fun _ _ _ => RunResult.ok "")).exitCode = none :=
  C3_stdout_header_then_record ⟨"/u", "/v", "/w/y.bc"⟩ _ "" "" "" ""
    (by decide) (by decide) (by decide) rfl rfl rfl rfl

/-- C4: the driver runs the two-toolchain pipeline twice on the same
arguments (four child processes: toolchain 1 and 2, then toolchain 1 and 2
again) and the printed comparison line is computed solely from the parsed
stderr texts `s2`, `s3` of the second run — the first run's results `s0`,
`s1` do not occur in the output. -/
theorem C4_pipeline_runs_twice_first_discarded (fl : Flags)
    (runner : ℕ → String → String → RunResult) (s0 s1 s2 s3 : String)
    (ht : fl.test ≠ "") (h1 : fl.t1 ≠ "") (h2 : fl.t2 ≠ "")
    (r0 : runner 0 fl.t1 fl.test = RunResult.ok s0)
    (r1 : runner 1 fl.t2 fl.test = RunResult.ok s1)
    (r2 : runner 2 fl.t1 fl.test = RunResult.ok s2)
    (r3 : runner 3 fl.t2 fl.test = RunResult.ok s3) :
    (mainExec fl runner).calls =
      [(fl.t1, fl.test), (fl.t2, fl.test), (fl.t1, fl.test), (fl.t2, fl.test)] ∧
    (mainExec fl runner).out =
      headerLine fl ++ statsLine (goPathBase fl.test)
        (parseTestOutput s2) (parseTestOutput s3) := by
  unfold mainExec
  rw [if_neg ht, if_neg h1, if_neg h2, r0, r1, r2, r3]
  exact ⟨rfl, rfl⟩

/-- Witness for C4: the first run's stderr texts are different from the
second run's, and the output line is the one of the second run. -/
theorem C4_witness :
    (mainExec ⟨"/p", "/q", "/r/x.bc"⟩
        (fun i _ _ => if i < 2 then RunResult.ok "discarded" else RunResult.ok "")).calls =
      [("/p", "/r/x.bc"), ("/q", "/r/x.bc"), ("/p", "/r/x.bc"), ("/q", "/r/x.bc")] ∧
    (mainExec ⟨"/p", "/q", "/r/x.bc"⟩
        (fun i _ _ => if i < 2 then RunResult.ok "discarded" else RunResult.ok "")).out =
      headerLine ⟨"/p", "/q", "/r/x.bc"⟩ ++ statsLine (goPathBase "/r/x.bc")
        (parseTestOutput "") (parseTestOutput "") :=
  C4_pipeline_runs_twice_first_discarded ⟨"/p", "/q", "/r/x.bc"⟩ _
    "discarded" "discarded" "" ""
    (by decide) (by decide) (by decide) rfl rfl rfl rfl

/-- C5: a failing Process-Runner invocation is fatal — whichever of the four
invocations fails first, the program exits with status 1, its stderr message
names the toolchain argument (`t1=`/`t2=`) and the test that triggered the
failure, standard output carries no comparison line (only the header), and
no further child process is started: in particular, when toolchain 1's run
fails, toolchain 2's run of that pipeline is never started. -/
theorem C5_runner_failure_is_fatal (fl : Flags)
    (runner : ℕ → String → String → RunResult)
    (ht : fl.test ≠ "") (h1 : fl.t1 ≠ "") (h2 : fl.t2 ≠ "") :
    (∀ e, runner 0 fl.t1 fl.test = RunResult.err e →
      mainExec fl runner =
        ⟨[(fl.t1, fl.test)], headerLine fl, [fatalT1 fl e], some 1⟩) ∧
    (∀ s0 e, runner 0 fl.t1 fl.test = RunResult.ok s0 →
      runner 1 fl.t2 fl.test = RunResult.err e →
      mainExec fl runner =
        ⟨[(fl.t1, fl.test), (fl.t2, fl.test)], headerLine fl,
          [fatalT2 fl e], some 1⟩) ∧
    (∀ s0 s1 e, runner 0 fl.t1 fl.test = RunResult.ok s0 →
      runner 1 fl.t2 fl.test = RunResult.ok s1 →
      runner 2 fl.t1 fl.test = RunResult.err e →
      mainExec fl runner =
        ⟨[(fl.t1, fl.test), (fl.t2, fl.test), (fl.t1, fl.test)], headerLine fl,
          [fatalT1 fl e], some 1⟩) ∧
    (∀ s0 s1 s2 e, runner 0 fl.t1 fl.test = RunResult.ok s0 →
      runner 1 fl.t2 fl.test = RunResult.ok s1 →
      runner 2 fl.t1 fl.test = RunResult.ok s2 →
      runner 3 fl.t2 fl.test = RunResult.err e →
      mainExec fl runner =
        ⟨[(fl.t1, fl.test), (fl.t2, fl.test), (fl.t1, fl.test), (fl.t2, fl.test)],
          headerLine fl, [fatalT2 fl e], some 1⟩) := by
  refine ⟨?_, ?_, ?_, ?_⟩
  · intro e r0
    unfold mainExec
    rw [if_neg ht, if_neg h1, if_neg h2, r0]
  · intro s0 e r0 r1
    unfold mainExec
    rw [if_neg ht, if_neg h1, if_neg h2, r0, r1]
  · intro s0 s1 e r0 r1 r2
    unfold mainExec
    rw [if_neg ht, if_neg h1, if_neg h2, r0, r1, r2]
  · intro s0 s1 s2 e r0 r1 r2 r3
    unfold mainExec
    rw [if_neg ht, if_neg h1, if_neg h2, r0, r1, r2, r3]

/-- Witness for C5: toolchain 1's run fails immediately; only one child
process was started and toolchain 2 was never run. -/
theorem C5_witness :
    mainExec ⟨"/a1", "/b2", "/t.bc"⟩ (fun _ _ _ => RunResult.err "boom") =
      ⟨[("/a1", "/t.bc")], "Running test: /t.bc\n",
        ["runTest(t1=/a1, test=/t.bc): boom"], some 1⟩ :=
  (C5_runner_failure_is_fatal ⟨"/a1", "/b2", "/t.bc"⟩ _
    (by decide) (by decide) (by decide)).1 "boom" rfl

/-- C9: invoking the program with `-t1` and `-test` set to non-empty values
but `-t2` unset exits with status 1 after writing the message naming `-t2`
plus the flag defaults to the error stream; nothing is printed to standard
output and no child process is spawned. -/
theorem C9_missing_t2_flag (t1v testv : String) (h1 : t1v ≠ "") (ht : testv ≠ "")
    (runner : ℕ → String → String → RunResult) :
    mainExec ⟨t1v, "", testv⟩ runner =
      ⟨[], "", ["-t2 is not specified\n" ++ flagDefaultsText], some 1⟩ := by
  simp only [mainExec]
  rw [if_neg ht, if_neg h1, if_pos trivial]
  rfl

/-- Witness for C9 at concrete flag values. -/
theorem C9_witness :
    mainExec ⟨"/x", "", "/y"⟩ (fun _ _ _ => RunResult.ok "") =
      ⟨[], "", ["-t2 is not specified\n" ++ flagDefaultsText], some 1⟩ :=
  C9_missing_t2_flag "/x" "/y" (by decide) (by decide) _
